import Mathlib

/-!
Shallow embedding of the Discord-to-HTTP bridge (`src/index.js`, active code,
lines 1–178) for checking the natural-language specification against the code.

The embedded parts are:
  * `processMessage` (src/index.js:38-70): the message normalizer — embed
    flattening, the three regex replacements (custom emoji, relative
    timestamp, double-asterisk bold), and payload construction;
  * `postToNextBatch` (src/index.js:72-94): the forwarder — the missing-config
    guard, request construction (trailing-slash strip + "/api/discord"),
    and the handling of the HTTP outcome;
  * the batch construction shared by `fetchAndPostLatest` (src/index.js:106)
    and the `messageCreate` handler (src/index.js:160):
    `Array.from(messagesCol.values()).reverse().map(m => processMessage(m, tag))`.

JS regex `String.replace(pat, f)` with the `g` flag scans left to right,
replaces each leftmost non-overlapping match and resumes after it; the three
patterns of the source are modelled by faithful character-list scanners below.
`new Date(Number(ts) * 1000).toLocaleTimeString()` is locale/clock dependent;
it is modelled by a formatter parameter `fmt : Nat → String` applied to the
parsed epoch seconds (the spec itself calls the formatting
implementation-defined, deterministic for a fixed clock/locale).
JS truthiness is modelled explicitly: a missing (`undefined`) or empty string
is falsy (`jsFalsy`), which is what `!NEXT_API_URL`, `e.title ? ...` and
`... || "Unknown"` test in the source.
-/

namespace DiscordBridge

/-- JS falsiness of an optional string: `undefined` and `""` are falsy.
Models `!x` / `x ? _ : _` on `NEXT_API_URL`, `POST_SECRET`, `e.title`. -/
def jsFalsy : Option String → Bool
  | none => true
  | some s => s = ""

/-- `x || d` for an optional string `x`: the default is taken when `x` is
`undefined` or empty. Models `m.author?.username || "Unknown"`. -/
def jsOrDefault (x : Option String) (d : String) : String :=
  match x with
  | none => d
  | some s => if s = "" then d else s

/-- `[a-zA-Z0-9_]` of the emoji-name character class (all classes in the
source's regexes are ASCII). -/
def isWordChar (c : Char) : Bool :=
  c.isAlpha || c.isDigit || c = '_'

/-- JS line terminators, which `.` does not match in a non-dotall regex
(relevant to the lazy `(.*?)` of the bold pattern). -/
def isLineTerm (c : Char) : Bool :=
  c = '\n' || c = '\r' || c = Char.ofNat 0x2028 || c = Char.ofNat 0x2029

/-- Attempted match of `/<:([a-zA-Z0-9_]+):(\d+)>/` at the head of the list;
on success returns (name capture, digits capture, remainder after the match). -/
def matchEmojiAt (l : List Char) : Option (List Char × List Char × List Char) :=
  match l with
  | c1 :: c2 :: r =>
    if c1 = '<' ∧ c2 = ':' then
      let name := r.takeWhile isWordChar
      match r.dropWhile isWordChar with
      | c3 :: r2 =>
        if c3 = ':' then
          let ds := r2.takeWhile Char.isDigit
          match r2.dropWhile Char.isDigit with
          | c4 :: r3 =>
            if c4 = '>' ∧ name ≠ [] ∧ ds ≠ [] then some (name, ds, r3) else none
          | [] => none
        else none
      | [] => none
    else none
  | _ => none

/-- The replacement text of the emoji rule (src/index.js:58). -/
def emojiImg (name ds : List Char) : List Char :=
  "<img src=\"https://cdn.discordapp.com/emojis/".data ++ ds
    ++ ".png\" alt=\"".data ++ name
    ++ "\" style=\"width:20px;height:20px;vertical-align:middle;\" />".data

/-- Global-replace driver for the emoji rule. The fuel starts at the list
length; every step consumes at least one character, so the fuel never runs
out before the input does. -/
def replaceEmojiAux : Nat → List Char → List Char
  | 0, l => l
  | _ + 1, [] => []
  | fuel + 1, c :: rest =>
    match matchEmojiAt (c :: rest) with
    | some (name, ds, r) => emojiImg name ds ++ replaceEmojiAux fuel r
    | none => c :: replaceEmojiAux fuel rest

/-- `.replace(/<:([a-zA-Z0-9_]+):(\d+)>/g, ...)` (src/index.js:55-59). -/
def replaceEmojiL (l : List Char) : List Char :=
  replaceEmojiAux l.length l

/-- Attempted match of `/<t:(\d+):R>/` at the head of the list; on success
returns (digits capture, remainder after the match). -/
def matchTsAt (l : List Char) : Option (List Char × List Char) :=
  match l with
  | c1 :: c2 :: c3 :: r =>
    if c1 = '<' ∧ c2 = 't' ∧ c3 = ':' then
      let ds := r.takeWhile Char.isDigit
      match r.dropWhile Char.isDigit with
      | d1 :: d2 :: d3 :: r2 =>
        if d1 = ':' ∧ d2 = 'R' ∧ d3 = '>' ∧ ds ≠ [] then some (ds, r2) else none
      | _ => none
    else none
  | _ => none

/-- `Number(ts)` on the captured digit run. -/
def digitsToNat (l : List Char) : Nat :=
  l.foldl (fun n c => 10 * n + (c.toNat - '0'.toNat)) 0

/-- Global-replace driver for the timestamp rule; `fmt` models
`ts => new Date(Number(ts) * 1000).toLocaleTimeString()` on epoch seconds. -/
def replaceTsAux (fmt : Nat → String) : Nat → List Char → List Char
  | 0, l => l
  | _ + 1, [] => []
  | fuel + 1, c :: rest =>
    match matchTsAt (c :: rest) with
    | some (ds, r) => (fmt (digitsToNat ds)).data ++ replaceTsAux fmt fuel r
    | none => c :: replaceTsAux fmt fuel rest

/-- `.replace(/<t:(\d+):R>/g, ...)` (src/index.js:60). -/
def replaceTsL (fmt : Nat → String) (l : List Char) : List Char :=
  replaceTsAux fmt l.length l

/-- The lazy body `(.*?)\*\*` of the bold pattern: at each position the
closing `**` is tried first; otherwise one non-line-terminator character is
consumed. Returns (inner capture, remainder after the closing `**`). -/
def scanBoldInner (l : List Char) : Option (List Char × List Char) :=
  match l with
  | c1 :: rest =>
    match rest with
    | c2 :: r2 =>
      if c1 = '*' ∧ c2 = '*' then some ([], r2)
      else if isLineTerm c1 then none
      else
        match scanBoldInner rest with
        | some (inner, r) => some (c1 :: inner, r)
        | none => none
    | [] => none
  | [] => none

/-- Attempted match of `/\*\*(.*?)\*\*/` at the head of the list. -/
def matchBoldAt (l : List Char) : Option (List Char × List Char) :=
  match l with
  | c1 :: c2 :: r => if c1 = '*' ∧ c2 = '*' then scanBoldInner r else none
  | _ => none

/-- Global-replace driver for the bold rule with replacement
`<strong>$1</strong>`. -/
def replaceBoldAux : Nat → List Char → List Char
  | 0, l => l
  | _ + 1, [] => []
  | fuel + 1, c :: rest =>
    match matchBoldAt (c :: rest) with
    | some (inner, r) =>
      "<strong>".data ++ inner ++ "</strong>".data ++ replaceBoldAux fuel r
    | none => c :: replaceBoldAux fuel rest

/-- `.replace(/\*\*(.*?)\*\*/g, "<strong>$1</strong>")` (src/index.js:61). -/
def replaceBoldL (l : List Char) : List Char :=
  replaceBoldAux l.length l

/-- The markup-translation pipeline of `processMessage` (src/index.js:54-61),
in the source's order: emoji, then relative timestamp, then bold. These are
the only replacement steps the source applies. -/
def applyMarkup (fmt : Nat → String) (s : String) : String :=
  String.mk (replaceBoldL (replaceTsL fmt (replaceEmojiL s.data)))

/-- An embed field `{ name, value }`. -/
structure EmbedField where
  name : String
  value : String
deriving DecidableEq, Repr

/-- A Discord embed as read by `processMessage`: title, description, fields. -/
structure Embed where
  title : Option String
  description : Option String
  fields : List EmbedField
deriving DecidableEq, Repr

/-- An attachment `{ url, name, contentType }` of the raw message (present on
the inbound message; `processMessage` never reads it). -/
structure Attachment where
  url : String
  name : String
  contentType : String
deriving DecidableEq, Repr

/-- The author sub-record as read by the source (`m.author?.username`). -/
structure Author where
  username : String
deriving DecidableEq, Repr

/-- The inbound Discord message fields relevant to the spec's RawMessage:
the source reads `id`, `author?.username`, `content`, `embeds` and
`createdTimestamp`; `channelId`, `channelName` and `attachments` are carried
by the inbound message but never read by `processMessage`. -/
structure RawMessage where
  id : String
  author : Option Author
  content : Option String
  embeds : List Embed
  createdTimestamp : Int
  channelId : String
  channelName : String
  attachments : List Attachment
deriving DecidableEq, Repr

/-- The payload record returned by `processMessage` (src/index.js:63-69):
exactly the five fields the source constructs. -/
structure Payload where
  id : String
  author : String
  content : String
  createdAt : Int
  channel : String
deriving DecidableEq, Repr

/-- `${f.name}: ${f.value}` (src/index.js:46). -/
def renderField (f : EmbedField) : String :=
  f.name ++ ": " ++ f.value

/-- The per-embed rendering of src/index.js:43-49:
`desc = e.description ?? ""`, then if `e.fields?.length` append a newline and
the `name: value` lines, then if `e.title` (truthy, i.e. present and
non-empty) prepend the title and a newline. -/
def renderEmbed (e : Embed) : String :=
  let desc0 := e.description.getD ""
  let desc1 :=
    match e.fields with
    | [] => desc0
    | fs => desc0 ++ "\n" ++ String.intercalate "\n" (fs.map renderField)
  match e.title with
  | some t => if t = "" then desc1 else t ++ "\n" ++ desc1
  | none => desc1

/-- Content selection of src/index.js:39-52: start from `m.content ?? ""`;
if `m.embeds?.length` is truthy, overwrite with the embed renderings joined
by a single newline. -/
def selectContent (m : RawMessage) : String :=
  match m.embeds with
  | [] => m.content.getD ""
  | es => String.intercalate "\n" (es.map renderEmbed)

/-- `processMessage(m, channelTag)` (src/index.js:38-70), the Normalizer:
select content, run the three-step markup pipeline, build the payload.
`fmt` is the locale time formatter of the timestamp rule. -/
def processMessage (fmt : Nat → String) (m : RawMessage) (channelTag : String) :
    Payload :=
  { id := m.id
    author := jsOrDefault (m.author.map Author.username) "Unknown"
    content := applyMarkup fmt (selectContent m)
    createdAt := m.createdTimestamp
    channel := channelTag }

/-- Whether the last character of a string is `/` — the condition under which
the regex `/\/$/` of src/index.js:79 matches. -/
def endsWithSlash (s : String) : Bool :=
  s.data.reverse.head? == some '/'

/-- `NEXT_API_URL.replace(/\/$/, "")` (src/index.js:79): remove the final
character when it is a slash (the regex matches exactly one `/` at the very
end of the string), otherwise leave the string unchanged. -/
def stripTrailingSlash (s : String) : String :=
  if endsWithSlash s then String.mk s.data.reverse.tail.reverse else s

/-- The request URL built by `postToNextBatch` (src/index.js:79). -/
def requestUrlOf (endpoint : String) : String :=
  stripTrailingSlash endpoint ++ "/api/discord"

/-- The HTTP request `postToNextBatch` issues (src/index.js:79-86): URL,
fixed content type, shared-secret header, and the `{channel, messages}`
envelope body. -/
structure Request where
  url : String
  contentType : String
  secretHeader : String
  bodyChannel : String
  bodyMessages : List Payload
deriving DecidableEq, Repr

/-- What the network did for an issued request: either `fetch` resolved with
a status and an optional body text (`none` = reading the body failed, which
the source maps to "<no body>"), or `fetch` rejected with a cause. -/
inductive HttpOutcome where
  | response (status : Nat) (bodyText : Option String)
  | networkFailure (cause : String)
deriving DecidableEq, Repr

/-- The observable result of `postToNextBatch`: which of the source's three
paths ran. `skippedNoConfig` is the guard branch (warn + plain return);
`logged` is the response branch (status and body logged, plain return, for
every status — the source never inspects `res.status`); `caught` is the
`catch` branch (error logged, plain return). The JS function returns
`undefined` on every path; it has no throwing path. -/
inductive PostResult where
  | skippedNoConfig
  | logged (status : Nat) (body : String)
  | caught (cause : String)
deriving DecidableEq, Repr

/-- The full observable behaviour of one `postToNextBatch` call: the request
it issued (`none` = no network operation attempted) and its result path. -/
structure PostTrace where
  request : Option Request
  result : PostResult
deriving DecidableEq, Repr

/-- `postToNextBatch(channelTag, messagesArray)` (src/index.js:72-94) against
environment `apiUrl`/`secret` (each `none` = unset) and a given network
outcome. Guard: if either is unset or empty, warn and return without any
network operation. Otherwise issue the POST; any resolved response — 2xx or
not — is logged with its status and best-effort body text and the call
returns normally; a rejected fetch is caught and logged. -/
def postToNextBatch (apiUrl secret : Option String) (channelTag : String)
    (messagesArray : List Payload) (outcome : HttpOutcome) : PostTrace :=
  if jsFalsy apiUrl || jsFalsy secret then
    { request := none, result := .skippedNoConfig }
  else
    let req : Request :=
      { url := requestUrlOf (apiUrl.getD "")
        contentType := "application/json"
        secretHeader := secret.getD ""
        bodyChannel := channelTag
        bodyMessages := messagesArray }
    match outcome with
    | .response status bodyText =>
      { request := some req, result := .logged status (bodyText.getD "<no body>") }
    | .networkFailure cause =>
      { request := some req, result := .caught cause }

/-- The batch built from a fetched message collection, shared by
`fetchAndPostLatest` (src/index.js:106) and the `messageCreate` handler
(src/index.js:160):
`Array.from(messagesCol.values()).reverse().map(m => processMessage(m, tag))`.
`fetched` is the list in the order the fetch returned it. -/
def initialBatch (fmt : Nat → String) (fetched : List RawMessage) (tag : String) :
    List Payload :=
  fetched.reverse.map (fun m => processMessage fmt m tag)

/-- `**` occurs somewhere in the list (the bold pattern can only match where
this holds). -/
def hasDoubleStar (l : List Char) : Bool :=
  match l with
  | c1 :: c2 :: r => (c1 = '*' && c2 = '*') || hasDoubleStar (c2 :: r)
  | _ => false

/-- Per-embed rendering written after the amended §4.1 step 1: the title
(when present and non-empty, not bold-wrapped) on its own line, then the
description (or the empty string), then a newline and the fields rendered as
`name: value` joined by newlines when there are fields. -/
def renderEmbedAmended (e : Embed) : String :=
  (match e.title with
   | some t => if t = "" then "" else t ++ "\n"
   | none => "")
  ++ e.description.getD ""
  ++ (match e.fields with
      | [] => ""
      | fs => "\n" ++ String.intercalate "\n" (fs.map renderField))

/-- Per-embed rendering written from the claim C2 / §4.1 step 1 wording:
bold-wrapped title on its own line, then the description (when present),
then each field as `**name:** value` joined by newlines. -/
def renderEmbedSpecClaim (e : Embed) : String :=
  (match e.title with
   | some t => if t = "" then "" else "**" ++ t ++ "**\n"
   | none => "")
  ++ e.description.getD ""
  ++ (match e.fields with
      | [] => ""
      | fs =>
        "\n" ++ String.intercalate "\n"
          (fs.map (fun f => "**" ++ f.name ++ ":** " ++ f.value)))

/-- Embed-derived content as claim C2 states it: the embeds' rendered blocks
joined with a blank line. -/
def specClaimEmbedContent (es : List Embed) : String :=
  String.intercalate "\n\n" (es.map renderEmbedSpecClaim)

/-- A fixed formatter standing for the locale time formatter in concrete
evaluations. -/
def fmt0 : Nat → String := fun _ => "TIME"

/-- A concrete inbound message with the given text content and embeds, used
for concrete evaluations of the Normalizer. -/
def plainMsg (c : Option String) (es : List Embed) : RawMessage :=
  { id := "m1"
    author := some { username := "alice" }
    content := c
    embeds := es
    createdTimestamp := 1
    channelId := "ch"
    channelName := "general"
    attachments := [] }

/-- Concrete message for claim C2: non-empty raw text plus two embeds, the
first with title, description and one field, the second with only a
description. -/
def msgC2 : RawMessage :=
  plainMsg (some "raw")
    [{ title := some "T", description := some "D", fields := [{ name := "N", value := "V" }] },
     { title := none, description := some "D2", fields := [] }]

/-- Concrete message for claim C4: non-empty raw text and one embed with no
title, no description and no fields. -/
def msgC4 : RawMessage :=
  plainMsg (some "hello") [{ title := none, description := none, fields := [] }]

/-- Like `msgC4` but with no raw text, for the C4 witness. -/
def msgC4b : RawMessage :=
  plainMsg none [{ title := none, description := none, fields := [] }]

/-- Concrete message for claim C5: raw text with leading and trailing
whitespace and no embeds. -/
def msgC5 : RawMessage := plainMsg (some " x ") []

/-- Concrete message for claim C6, carrying one attachment. -/
def msgC6a : RawMessage :=
  { id := "9"
    author := some { username := "bob" }
    content := some "hi"
    embeds := []
    createdTimestamp := 5
    channelId := "c1"
    channelName := "general"
    attachments := [{ url := "u", name := "n", contentType := "t" }] }

/-- Like `msgC6a` but with no attachments and different channel metadata. -/
def msgC6b : RawMessage :=
  { msgC6a with attachments := [], channelName := "other", channelId := "c2" }

/-- A minimal message with a given id and creation timestamp, for the batch
ordering claims. -/
def tsMsg (i : String) (ts : Int) : RawMessage :=
  { id := i
    author := none
    content := some "c"
    embeds := []
    createdTimestamp := ts
    channelId := "ch"
    channelName := "n"
    attachments := [] }

/-- Rebuilding a string from its character data gives the string back. -/
theorem stringMk_data (s : String) : String.mk s.data = s :=
  String.ext rfl

/-- The emoji pattern cannot match at a position whose first character is not
`<`. -/
theorem matchEmojiAt_eq_none (c : Char) (r : List Char) (h : c ≠ '<') :
    matchEmojiAt (c :: r) = none := by
  cases r with
  | nil => rfl
  | cons c2 r2 => simp [matchEmojiAt, h]

/-- The emoji replacement is the identity on text containing no `<`. -/
theorem replaceEmojiAux_id (fuel : Nat) (l : List Char) (h : '<' ∉ l) :
    replaceEmojiAux fuel l = l := by
  induction fuel generalizing l with
  | zero => rfl
  | succ n ih =>
    cases l with
    | nil => rfl
    | cons c rest =>
      rw [List.mem_cons] at h
      push_neg at h
      simp only [replaceEmojiAux, matchEmojiAt_eq_none c rest (Ne.symm h.1)]
      exact congrArg (c :: ·) (ih rest h.2)

/-- The timestamp pattern cannot match at a position whose first character is
not `<`. -/
theorem matchTsAt_eq_none (c : Char) (r : List Char) (h : c ≠ '<') :
    matchTsAt (c :: r) = none := by
  cases r with
  | nil => rfl
  | cons c2 r2 =>
    cases r2 with
    | nil => rfl
    | cons c3 r3 => simp [matchTsAt, h]

/-- The timestamp replacement is the identity on text containing no `<`,
for every locale formatter. -/
theorem replaceTsAux_id (fmt : Nat → String) (fuel : Nat) (l : List Char)
    (h : '<' ∉ l) : replaceTsAux fmt fuel l = l := by
  induction fuel generalizing l with
  | zero => rfl
  | succ n ih =>
    cases l with
    | nil => rfl
    | cons c rest =>
      rw [List.mem_cons] at h
      push_neg at h
      simp only [replaceTsAux, matchTsAt_eq_none c rest (Ne.symm h.1)]
      exact congrArg (c :: ·) (ih rest h.2)

/-- If `**` occurs nowhere in the list, neither does it in the tail. -/
theorem hasDoubleStar_tail (c : Char) (rest : List Char)
    (h : hasDoubleStar (c :: rest) = false) : hasDoubleStar rest = false := by
  cases rest with
  | nil => rfl
  | cons c2 r =>
    simp only [hasDoubleStar, Bool.or_eq_false_iff] at h
    exact h.2

/-- The bold pattern cannot match where no `**` occurs. -/
theorem matchBoldAt_eq_none (l : List Char) (h : hasDoubleStar l = false) :
    matchBoldAt l = none := by
  cases l with
  | nil => rfl
  | cons c rest =>
    cases rest with
    | nil => rfl
    | cons c2 r =>
      simp only [hasDoubleStar, Bool.or_eq_false_iff, Bool.and_eq_false_iff,
        decide_eq_false_iff_not] at h
      simp only [matchBoldAt]
      refine if_neg ?_
      rintro ⟨hc, hc2⟩
      rcases h.1 with h1 | h1 <;> exact h1 (by simp [hc, hc2])

/-- The bold replacement is the identity on text containing no `**`. -/
theorem replaceBoldAux_id (fuel : Nat) (l : List Char)
    (h : hasDoubleStar l = false) : replaceBoldAux fuel l = l := by
  induction fuel generalizing l with
  | zero => rfl
  | succ n ih =>
    cases l with
    | nil => rfl
    | cons c rest =>
      simp only [replaceBoldAux, matchBoldAt_eq_none (c :: rest) h]
      exact congrArg (c :: ·) (ih rest (hasDoubleStar_tail c rest h))

/-- The whole markup pipeline is the identity on text with no `<` and no
`**`, for every locale formatter. -/
theorem applyMarkup_id (fmt : Nat → String) (s : String) (h1 : '<' ∉ s.data)
    (h2 : hasDoubleStar s.data = false) : applyMarkup fmt s = s := by
  unfold applyMarkup replaceEmojiL replaceTsL replaceBoldL
  rw [replaceEmojiAux_id _ _ h1, replaceTsAux_id fmt _ _ h1,
    replaceBoldAux_id _ _ h2]

/-- The source's per-embed rendering agrees with the amended-specification
rendering (title unstyled on its own line, then description, then plain
`name: value` field lines). -/
theorem renderEmbed_eq_amended (e : Embed) : renderEmbed e = renderEmbedAmended e := by
  unfold renderEmbed renderEmbedAmended
  cases e.title with
  | none => cases e.fields <;> simp [String.empty_append, String.append_assoc]
  | some t =>
    by_cases ht : t = "" <;>
      cases e.fields <;>
        simp [ht, String.empty_append, String.append_empty, String.append_assoc]

/-- Appending `"/"` appends the slash character to the string's data. -/
theorem data_append_slash (s : String) : (s ++ "/").data = s.data ++ ['/'] := by
  rw [String.data_append]

/-- Stripping after appending one slash gives the original string back:
the regex `/\/$/` removes exactly one trailing slash. -/
theorem strip_append_slash (s : String) : stripTrailingSlash (s ++ "/") = s := by
  unfold stripTrailingSlash endsWithSlash
  rw [data_append_slash]
  simp [List.reverse_append, stringMk_data]

/-- A string not ending in a slash is left unchanged by the strip. -/
theorem strip_no_slash (s : String) (h : endsWithSlash s = false) :
    stripTrailingSlash s = s := by
  simp [stripTrailingSlash, h]

/-- C1 counterexample: the claim says normalizing content `"*just italic*"`
yields `"<em>just italic</em>"` and `"__underlined__"` yields
`"<u>underlined</u>"`. The source's pipeline (src/index.js:54-61) has no
italic and no underline replacement, so both strings pass through the
Normalizer unchanged and differ from the claimed outputs. -/
theorem c1_counterexample_no_italic_underline :
    (processMessage fmt0 (plainMsg (some "*just italic*") []) "t").content
      = "*just italic*"
    ∧ (processMessage fmt0 (plainMsg (some "__underlined__") []) "t").content
      = "__underlined__"
    ∧ ("*just italic*" : String) ≠ "<em>just italic</em>"
    ∧ ("__underlined__" : String) ≠ "<u>underlined</u>" :=
  ⟨by decide, by decide, by decide, by decide⟩

/-- C1 (corrected): the markup translation applies, after the bold step, no
further step at all — there is no single-asterisk italic step and no
double-underscore underline step. For every locale formatter, normalizing a
message whose content is `"*just italic*"` yields content `"*just italic*"`
and content `"__underlined__"` yields `"__underlined__"`, both unchanged. -/
theorem c1_markup_steps_amended (fmt : Nat → String) (t : String) :
    (processMessage fmt (plainMsg (some "*just italic*") []) t).content
      = "*just italic*"
    ∧ (processMessage fmt (plainMsg (some "__underlined__") []) t).content
      = "__underlined__" :=
  ⟨applyMarkup_id fmt "*just italic*" (by decide) (by decide),
   applyMarkup_id fmt "__underlined__" (by decide) (by decide)⟩

/-- C2 counterexample: for the concrete message `msgC2` (two embeds: one with
title `T`, description `D` and field `N`/`V`, one with only description `D2`)
the Normalizer produces `"T\nD\nN: V\nD2"`: the title is not bold-wrapped,
the field is rendered `name: value` (not `**name:** value`), and the two
embed blocks are joined by a single newline, not a blank line. This differs
from the claim's rendering (`specClaimEmbedContent`) both before and after
the markup pipeline. -/
theorem c2_counterexample_embed_rendering :
    (processMessage fmt0 msgC2 "t").content = "T\nD\nN: V\nD2"
    ∧ specClaimEmbedContent msgC2.embeds = "**T**\nD\n**N:** V\n\nD2"
    ∧ applyMarkup fmt0 (specClaimEmbedContent msgC2.embeds)
      = "<strong>T</strong>\nD\n<strong>N:</strong> V\n\nD2"
    ∧ (processMessage fmt0 msgC2 "t").content ≠ specClaimEmbedContent msgC2.embeds
    ∧ (processMessage fmt0 msgC2 "t").content
      ≠ applyMarkup fmt0 (specClaimEmbedContent msgC2.embeds) :=
  ⟨by decide, by decide, by decide, by decide, by decide⟩

/-- C2 (corrected): for every raw message with non-empty embeds, the
Normalizer builds the selected content by concatenating, per embed in order,
the plain (not bold-wrapped) title — when present and non-empty — on its own
line, then the description (or the empty string), then each field rendered as
`name: value` joined by newlines, and joins the rendered blocks of distinct
embeds with a single newline (not a blank line); the markup pipeline then
runs over that string. -/
theorem c2_embed_content_amended (fmt : Nat → String) (t : String)
    (m : RawMessage) (h : m.embeds ≠ []) :
    (processMessage fmt m t).content
      = applyMarkup fmt
          (String.intercalate "\n" (m.embeds.map renderEmbedAmended)) := by
  have hfun : renderEmbed = renderEmbedAmended := funext renderEmbed_eq_amended
  show applyMarkup fmt (selectContent m) = _
  cases hm : m.embeds with
  | nil => exact absurd hm h
  | cons e es => simp [selectContent, hm, hfun]

/-- C2 witness: the amended statement applied to the concrete `msgC2`. -/
theorem c2_embed_content_amended_witness :
    msgC2.embeds ≠ []
    ∧ (processMessage fmt0 msgC2 "t").content
      = applyMarkup fmt0
          (String.intercalate "\n" (msgC2.embeds.map renderEmbedAmended)) :=
  ⟨by decide, c2_embed_content_amended fmt0 "t" msgC2 (by decide)⟩

/-- C3 counterexample: the claim says a forward call receiving HTTP 500
reports a `RemoteRejected` error rather than reporting success. In the source
(src/index.js:78-93) the resolved-response path never inspects `res.status`:
a 500 response is logged and the call returns normally through exactly the
same path as a 200 response — `PostResult` (read off the source's three
return paths) has no error report distinct from that logging path. -/
theorem c3_counterexample_500_logged_as_success :
    (postToNextBatch (some "http://x") (some "k") "t" []
        (HttpOutcome.response 500 (some "oops"))).result
      = PostResult.logged 500 "oops"
    ∧ (postToNextBatch (some "http://x") (some "k") "t" []
        (HttpOutcome.response 200 (some "ok"))).result
      = PostResult.logged 200 "ok" :=
  ⟨by decide, by decide⟩

/-- C3 (corrected): whenever a forward call (with endpoint and secret
configured) receives an HTTP response, whatever its status — 2xx or not — it
logs the status code and, best-effort, the response body text (a failed body
read is replaced by `"<no body>"` and does not mask the outcome) and
completes normally; in particular a forward call receiving HTTP 500 raises no
unhandled fault, but no `RemoteRejected` error distinct from the success path
is reported. -/
theorem c3_any_status_logged (apiUrl secret : Option String) (tag : String)
    (msgs : List Payload) (st : Nat) (b : Option String)
    (hu : jsFalsy apiUrl = false) (hs : jsFalsy secret = false) :
    (postToNextBatch apiUrl secret tag msgs (HttpOutcome.response st b)).result
      = PostResult.logged st (b.getD "<no body>") := by
  simp [postToNextBatch, hu, hs]

/-- C3 witness: the amended statement at HTTP 500 with an unreadable body. -/
theorem c3_any_status_logged_witness :
    jsFalsy (some "http://x") = false
    ∧ jsFalsy (some "k") = false
    ∧ (postToNextBatch (some "http://x") (some "k") "t" []
        (HttpOutcome.response 500 none)).result
      = PostResult.logged 500 "<no body>" :=
  ⟨by decide, by decide,
   c3_any_status_logged (some "http://x") (some "k") "t" [] 500 none
     (by decide) (by decide)⟩

/-- C4 counterexample: the claim says that when the embeds list is non-empty
but renders to the empty string, the Normalizer falls back to the raw text.
For `msgC4` (raw text `"hello"`, one embed with no title, no description and
no fields) the source overwrites the content with the embed rendering
unconditionally (src/index.js:41-52), so the normalized content is `""`,
not `"hello"` — and `"hello"` is what the pipeline would have produced from
the raw text. -/
theorem c4_counterexample_no_fallback :
    msgC4.content = some "hello"
    ∧ msgC4.embeds ≠ []
    ∧ (processMessage fmt0 msgC4 "t").content = ""
    ∧ applyMarkup fmt0 "hello" = "hello"
    ∧ (processMessage fmt0 msgC4 "t").content ≠ "hello" :=
  ⟨rfl, by decide, by decide, by decide, by decide⟩

/-- C4 (corrected): when the embeds list is non-empty the Normalizer never
falls back to the raw text — the content depends only on the embeds: two raw
messages with the same non-empty embeds list produce the same content, no
matter their raw text (in particular when every embed is empty the content is
the embed-derived string, not the raw text). -/
theorem c4_content_ignores_raw_text (fmt : Nat → String) (t t' : String)
    (m m' : RawMessage) (hemb : m.embeds = m'.embeds) (hne : m.embeds ≠ []) :
    (processMessage fmt m t).content = (processMessage fmt m' t').content := by
  show applyMarkup fmt (selectContent m) = applyMarkup fmt (selectContent m')
  congr 1
  cases hm : m.embeds with
  | nil => exact absurd hm hne
  | cons e es => simp [selectContent, hm, hemb.symm.trans hm]

/-- C4 witness: `msgC4` (raw text `"hello"`) and `msgC4b` (no raw text) share
the same single empty embed and get the same content. -/
theorem c4_content_ignores_raw_text_witness :
    msgC4.embeds = msgC4b.embeds
    ∧ msgC4.embeds ≠ []
    ∧ (processMessage fmt0 msgC4 "t").content
      = (processMessage fmt0 msgC4b "u").content :=
  ⟨by decide, by decide,
   c4_content_ignores_raw_text fmt0 "t" "u" msgC4 msgC4b (by decide) (by decide)⟩

/-- C5 counterexample: the claim says the final content never has leading or
trailing whitespace. The source applies no trim (src/index.js:54-69): the
message `msgC5` with raw text `" x "` normalizes to content `" x "`, whose
first character is a space. -/
theorem c5_counterexample_whitespace_kept :
    (processMessage fmt0 msgC5 "t").content = " x "
    ∧ (processMessage fmt0 msgC5 "t").content.data.head? = some ' ' :=
  ⟨by decide, by decide⟩

/-- C5 (corrected): normalization has no trimming step at all — the content
is exactly the markup-translated selected content, whitespace included: for
every locale formatter, a message with raw text `" x "` and no embeds yields
content `" x "`, a string that still starts and ends with a space. -/
theorem c5_no_trim_amended (fmt : Nat → String) (t : String) (m : RawMessage)
    (hc : m.content = some " x ") (he : m.embeds = []) :
    (processMessage fmt m t).content = " x "
    ∧ (processMessage fmt m t).content.data.head? = some ' '
    ∧ (processMessage fmt m t).content.data.getLast? = some ' ' := by
  have h1 : (processMessage fmt m t).content = " x " := by
    show applyMarkup fmt (selectContent m) = _
    have hsel : selectContent m = " x " := by simp [selectContent, he, hc]
    rw [hsel]
    exact applyMarkup_id fmt " x " (by decide) (by decide)
  refine ⟨h1, ?_, ?_⟩ <;> rw [h1] <;> decide

/-- C5 witness: the amended statement at the concrete `msgC5`. -/
theorem c5_no_trim_amended_witness :
    msgC5.content = some " x "
    ∧ msgC5.embeds = []
    ∧ (processMessage fmt0 msgC5 "t").content = " x " :=
  ⟨rfl, rfl, (c5_no_trim_amended fmt0 "t" msgC5 rfl rfl).1⟩

/-- C6 counterexample: the claim says the payload populates rawContent,
createdISO, hasEmbeds, embedCount, channelId and channelName, and that every
attachment of the raw message appears unchanged at the same index of the
payload's attachments. The payload built by the source (src/index.js:63-69)
has only `id`, `author`, `content`, `createdAt` and `channel`: `msgC6a`
carries the attachment `{url:"u", name:"n", contentType:"t"}` while `msgC6b`
carries none and different channel metadata, yet both normalize to the very
same payload — so no payload field can hold the attachments (or the channel
name/id) of the message. -/
theorem c6_counterexample_payload_drops_fields :
    processMessage fmt0 msgC6a "tag" = processMessage fmt0 msgC6b "tag"
    ∧ msgC6a.attachments ≠ msgC6b.attachments
    ∧ msgC6a.attachments = [{ url := "u", name := "n", contentType := "t" }]
    ∧ msgC6a.channelName ≠ msgC6b.channelName :=
  ⟨by decide, by decide, rfl, by decide⟩

/-- C6 (corrected): the normalized payload consists of exactly `id` (mapped
directly), `author` (the author's username, or `"Unknown"` when the author or
username is missing or empty), `content`, `createdAt` (from
`createdTimestamp`) and `channel` (the caller's tag). It carries nothing
else: the payload is unchanged under any change to the raw message's
attachments, channel name or channel id, so no rawContent, createdISO,
hasEmbeds, embedCount, channel metadata or attachments are populated. -/
theorem c6_payload_fields_amended (fmt : Nat → String) (t : String)
    (m : RawMessage) (atts : List Attachment) (cn ci : String) :
    processMessage fmt
        { m with attachments := atts, channelName := cn, channelId := ci } t
      = processMessage fmt m t
    ∧ (processMessage fmt m t).id = m.id
    ∧ (processMessage fmt m t).createdAt = m.createdTimestamp
    ∧ (processMessage fmt m t).channel = t
    ∧ (processMessage fmt m t).author
      = jsOrDefault (m.author.map Author.username) "Unknown" :=
  ⟨rfl, rfl, rfl, rfl, rfl⟩

/-- C7 counterexample: the claim says the forwarded batch is ordered
oldest-first by ascending createdAt regardless of the order in which the
messages were fetched. The source only reverses the fetched collection
(src/index.js:106,160): if the fetch hands back createdAt order
[100, 300, 200], the batch comes out [200, 300, 100], not [100, 200, 300]. -/
theorem c7_counterexample_not_sorted :
    ((initialBatch fmt0 [tsMsg "a" 100, tsMsg "b" 300, tsMsg "c" 200] "t").map
        Payload.createdAt)
      = [200, 300, 100]
    ∧ ([200, 300, 100] : List Int) ≠ [100, 200, 300] :=
  ⟨by decide, by decide⟩

/-- C7 (corrected): the batch presented to the Forwarder is exactly the
reverse of the fetched order (with each message normalized), not a sort; it
is ascending by createdAt precisely when the fetch returned the messages
newest-first, as the Discord fetch does — given three messages with createdAt
values [300, 200, 100] fetched newest-first, the forwarded batch is ordered
[100, 200, 300]. -/
theorem c7_batch_is_reverse_of_fetch (fmt : Nat → String) (tag : String)
    (fetched : List RawMessage) :
    ((initialBatch fmt fetched tag).map Payload.createdAt
      = (fetched.map RawMessage.createdTimestamp).reverse)
    ∧ ((fetched.map RawMessage.createdTimestamp).Pairwise (· ≥ ·)
      → ((initialBatch fmt fetched tag).map Payload.createdAt).Pairwise (· ≤ ·)) := by
  have h1 : (initialBatch fmt fetched tag).map Payload.createdAt
      = (fetched.map RawMessage.createdTimestamp).reverse := by
    simp only [initialBatch, List.map_map, List.map_reverse]
    rfl
  refine ⟨h1, fun hp => ?_⟩
  rw [h1, List.pairwise_reverse]
  exact hp

/-- C7 witness: three messages fetched newest-first come out ascending. -/
theorem c7_batch_is_reverse_of_fetch_witness :
    (([tsMsg "c" 300, tsMsg "b" 200, tsMsg "a" 100].map
        RawMessage.createdTimestamp).Pairwise (· ≥ ·))
    ∧ ((initialBatch fmt0 [tsMsg "c" 300, tsMsg "b" 200, tsMsg "a" 100] "t").map
        Payload.createdAt).Pairwise (· ≤ ·) :=
  ⟨by decide,
   (c7_batch_is_reverse_of_fetch fmt0 "t"
      [tsMsg "c" 300, tsMsg "b" 200, tsMsg "a" 100]).2 (by decide)⟩

/-- C8 (confirmed): whenever the endpoint URL or the shared secret is unset
or empty, `postToNextBatch` issues no request at all (the trace's request is
`none`) and takes the warn-and-return branch — success without effect
(src/index.js:73-76). The function is total: no branch raises. -/
theorem c8_guard_no_op (apiUrl secret : Option String) (tag : String)
    (msgs : List Payload) (outcome : HttpOutcome)
    (h : (jsFalsy apiUrl || jsFalsy secret) = true) :
    postToNextBatch apiUrl secret tag msgs outcome
      = { request := none, result := PostResult.skippedNoConfig } := by
  simp [postToNextBatch, h]

/-- C8 witness: the guard at an unset endpoint URL (and at an empty secret). -/
theorem c8_guard_no_op_witness :
    (jsFalsy none || jsFalsy (some "k")) = true
    ∧ (jsFalsy (some "http://x") || jsFalsy (some "")) = true
    ∧ postToNextBatch none (some "k") "t" [] (HttpOutcome.response 200 none)
      = { request := none, result := PostResult.skippedNoConfig }
    ∧ postToNextBatch (some "http://x") (some "") "t" []
        (HttpOutcome.response 200 none)
      = { request := none, result := PostResult.skippedNoConfig } :=
  ⟨by decide, by decide,
   c8_guard_no_op none (some "k") "t" [] (HttpOutcome.response 200 none)
     (by decide),
   c8_guard_no_op (some "http://x") (some "") "t" []
     (HttpOutcome.response 200 none) (by decide)⟩

/-- C9 (confirmed): a raw message whose text content is the empty string and
whose embeds list is empty normalizes to content `""`, for every locale
formatter (src/index.js:39-66). -/
theorem c9_empty_message_empty_content (fmt : Nat → String) (t : String)
    (m : RawMessage) (hc : m.content = some "") (he : m.embeds = []) :
    (processMessage fmt m t).content = "" := by
  show applyMarkup fmt (selectContent m) = ""
  have hsel : selectContent m = "" := by simp [selectContent, he, hc]
  rw [hsel]
  rfl

/-- C9 witness: the concrete empty message. -/
theorem c9_empty_message_empty_content_witness :
    (plainMsg (some "") []).content = some ""
    ∧ (plainMsg (some "") []).embeds = []
    ∧ (processMessage fmt0 (plainMsg (some "") []) "t").content = "" :=
  ⟨rfl, rfl, c9_empty_message_empty_content fmt0 "t" (plainMsg (some "") []) rfl rfl⟩

/-- C10 (confirmed): the request URL strips exactly one trailing slash
before appending `/api/discord` (src/index.js:79): appending one slash to any
endpoint strips back to the endpoint itself; an endpoint with no trailing
slash is left as is, so `X` and `X/` give the identical request URL; and an
endpoint ending in two slashes keeps a double slash in the request URL. -/
theorem c10_trailing_slash (s : String) :
    stripTrailingSlash (s ++ "/") = s
    ∧ (endsWithSlash s = false →
        stripTrailingSlash s = s
        ∧ requestUrlOf (s ++ "/") = requestUrlOf s)
    ∧ requestUrlOf "http://h//" = "http://h//api/discord" := by
  refine ⟨strip_append_slash s, fun h => ⟨strip_no_slash s h, ?_⟩, by decide⟩
  unfold requestUrlOf
  rw [strip_append_slash s, strip_no_slash s h]

/-- C10 witness: the equal-URL consequence at a slashless endpoint. -/
theorem c10_trailing_slash_witness :
    endsWithSlash "http://h" = false
    ∧ requestUrlOf ("http://h" ++ "/") = requestUrlOf "http://h" :=
  ⟨by decide, ((c10_trailing_slash "http://h").2.1 (by decide)).2⟩

end DiscordBridge
